import Mathlib

/-!
Verification development for the Windows native file monitor
(src/02_C_Source/Windows/FileMonitor.c).

The C file is embedded shallowly:

* The notification buffer handed back by ReadDirectoryChangesW is a byte
  memory `Mem : Nat → Nat` together with the `bytesReturned` count; the
  FILE_NOTIFY_INFORMATION walk of the inner `for(;;)` loop (lines 186-278)
  is `parseRecords` (pointer chase via NextEntryOffset) followed by
  `processRecords` (per-record action switch, path join, size lookup,
  UTF-16→UTF-8 conversion, JVM attach, callback invocation).
* Every interaction with the outside world (GetFileAttributesExW,
  WideCharToMultiByte, AttachCurrentThread, NewStringUTF, the JVM cache,
  the wall clock) is an oracle field of `Oracles`, so the embedded
  functions are total and executable.
* The global `gState` is `MonitorState`; `startMonitoring`,
  `stopMonitoring`, `getNativeMonitorStats` and `isMonitoringActive`
  are embedded as explicit state-passing functions.  JNI object handles
  (global refs, method ids) are modelled as booleans recording whether
  the corresponding pointer field of `gState` is non-NULL.
-/

namespace FileMonitor

/-- Byte memory backing `BYTE buffer[BUFFER_SIZE]` (FileMonitor.c line 165):
the byte value at each index.  Indices at or past `bytesReturned` model the
uninitialized tail of the stack buffer, which the C code can still read. -/
abbrev Mem := Nat → Nat

/-- Value of one byte of the buffer (reduced mod 256 since a `BYTE` holds
eight bits). -/
def readByte (m : Mem) (i : Nat) : Nat := m i % 256

/-- Little-endian 16-bit `wchar_t` starting at byte index `i`. -/
def readWChar (m : Mem) (i : Nat) : Nat :=
  readByte m i + 256 * readByte m (i + 1)

/-- Little-endian 32-bit `DWORD` starting at byte index `i`. -/
def readDWord (m : Mem) (i : Nat) : Nat :=
  readByte m i + 256 * readByte m (i + 1) + 65536 * readByte m (i + 2) +
    16777216 * readByte m (i + 3)

/-- MAX_PATH_LEN from FileMonitor.c line 15. -/
def MAX_PATH_LEN : Nat := 1024

/-- BUFFER_SIZE from FileMonitor.c line 14. -/
def BUFFER_SIZE : Nat := 32768

/-- One visited FILE_NOTIFY_INFORMATION record, as the C loop sees it:
`NextEntryOffset` (byte offset 0), `Action` (offset 4), and the wide
filename the code copies out with
`wcsncpy(wFilename, pNotify->FileName, copyLen)` (lines 190-194). -/
structure RawRecord where
  nextOfs : Nat
  action : Nat
  name : List Nat
deriving DecidableEq, Repr

/-- Wide filename extraction of lines 190-194: `wcharLen` is
`FileNameLength / sizeof(wchar_t)`, `copyLen` clamps it to
`MAX_PATH_LEN - 1`, and `wcsncpy` copies `copyLen` wide chars, stopping at
an embedded NUL; the resulting C wide string is the prefix of those chars
up to the first NUL.  Note that nothing bounds the read by
`bytesReturned`: the source indices run from `base + 12` regardless of the
buffer's valid length. -/
def readName (m : Mem) (base fnlen : Nat) : List Nat :=
  let copyLen := min (fnlen / 2) (MAX_PATH_LEN - 1)
  ((List.range copyLen).map (fun k => readWChar m (base + 12 + 2 * k))).takeWhile
    (fun w => w != 0)

/-- The record walk of the inner `for(;;)` loop (lines 186-278): starting
at `pos`, read NextEntryOffset, Action and FileNameLength, extract the
name, and advance by NextEntryOffset until it is 0.  The C walk has no
termination bound of its own (each step just moves the pointer forward by
a nonzero offset), so the embedding takes a fuel argument; callers pass
`BUFFER_SIZE`, which covers every walk that stays inside the 32 KiB
buffer because each step advances the position by at least one byte. -/
def parseRecords (m : Mem) : Nat → Nat → List RawRecord
  | _, 0 => []
  | pos, fuel + 1 =>
    let r : RawRecord :=
      ⟨readDWord m pos, readDWord m (pos + 4), readName m pos (readDWord m (pos + 8))⟩
    if r.nextOfs = 0 then [r] else r :: parseRecords m (pos + r.nextOfs) fuel

/-- Wide path join of `join_path_w` (lines 42-51): truncate the directory
to `outCap - 1` chars, append a backslash (code 92) when it still fits,
then `wcsncat` at most `outCap - wcslen(out) - 1` chars of the file name. -/
def join_path_w (dir file : List Nat) : List Nat :=
  let out := dir.take (MAX_PATH_LEN - 1)
  let out := if out.length + 1 < MAX_PATH_LEN then out ++ [92] else out
  out ++ file.take (MAX_PATH_LEN - out.length - 1)

/-- Interpretation of `(long)fad.nFileSizeLow` (line 217): the unsigned
32-bit low DWORD of the file size is cast to the 32-bit signed `long` of
Win32, which is then sign-extended by the `(jlong)` cast at line 252. -/
def toInt32 (n : Nat) : Int :=
  if n % 2 ^ 32 < 2 ^ 31 then ((n % 2 ^ 32 : Nat) : Int)
  else ((n % 2 ^ 32 : Nat) : Int) - 2 ^ 32

/-- File-size computation of lines 214-218: `fileSize` starts at 0 and is
set to `(long)fad.nFileSizeLow` only when `GetFileAttributesExW`
succeeds; `lookup` is the oracle for that call (`none` = the call failed,
e.g. the entry no longer exists; `some lo` = success with low DWORD
`lo`). -/
def fileSizeOf (lookup : List Nat → Option Nat) (fullPathW : List Nat) : Int :=
  match lookup fullPathW with
  | none => 0
  | some lo => toInt32 lo

/-- Environment oracles for one buffer's processing: the size lookup
(GetFileAttributesExW), the UTF-16→UTF-8 conversion (WideCharToMultiByte,
`none` = conversion failed, i.e. returned 0), whether `gJvm` was cached
by JNI_OnLoad, and per-record outcomes of AttachCurrentThread, the four
NewStringUTF allocations (collapsed to one flag), whether the Java
callback left a pending exception, and the timestamp string produced by
`build_iso_timestamp`. -/
structure Oracles where
  sizeLookup : List Nat → Option Nat
  toUtf8 : List Nat → Option (List Nat)
  jvmCached : Bool
  attachOk : Nat → Bool
  allocOk : Nat → Bool
  cbThrows : Nat → Bool
  tsOracle : Nat → String

/-- The event payload of one `onNativeFileEvent` callback invocation
(lines 245-253): monitor id, full path and file name (UTF-8), the action
tag string, the `(jlong)fileSize` value, and the timestamp. -/
structure NormalizedEvent where
  monitorPathId : Int
  fullPath : List Nat
  fileName : List Nat
  action : String
  fileSize : Int
  timestamp : String
deriving DecidableEq, Repr

/-- Log lines the per-record code writes to stderr (non-fatal). -/
inductive LogMsg where
  | convFailed
  | jvmMissing
  | attachFailed
  | allocFailed
  | cbException
deriving DecidableEq, Repr

/-- Action switch of lines 196-207 for the non-skipped cases:
FILE_ACTION_ADDED = 1 → CREATE, FILE_ACTION_REMOVED = 2 → DELETE,
FILE_ACTION_MODIFIED = 3 → MODIFY, FILE_ACTION_RENAMED_OLD_NAME = 4 →
RENAME; anything else keeps the initial "UNKNOWN".
(FILE_ACTION_RENAMED_NEW_NAME = 5 never reaches this switch result: that
case skips the record entirely before any event is built.) -/
def actionTag : Nat → String
  | 1 => "CREATE"
  | 3 => "MODIFY"
  | 2 => "DELETE"
  | 4 => "RENAME"
  | _ => "UNKNOWN"

/-- Processing of one visited record (lines 188-273), excluding the
advance: a RENAMED_NEW_NAME record (action 5) is skipped outright (lines
203-206); otherwise the full path is joined, the size looked up, both
strings converted to UTF-8 (event skipped with a logged error when either
conversion fails, lines 226-227), the thread attached to the JVM (event
dropped with a logged error when `gJvm` is NULL or the attach fails,
lines 234-238 and 269-271), the four Java strings allocated (event
dropped with a logged error when any allocation fails, lines 244 and
259-261), and finally the callback invoked; a pending exception raised by
the callback is logged and cleared (lines 255-258) and affects nothing
else.  Returns the dispatched event (if any) and the stderr log lines. -/
def processRecord (o : Oracles) (dir : List Nat) (mid : Int) (i : Nat)
    (r : RawRecord) : Option NormalizedEvent × List LogMsg :=
  if r.action = 5 then (none, [])
  else
    let fullPathW := join_path_w dir r.name
    let size := fileSizeOf o.sizeLookup fullPathW
    match o.toUtf8 r.name, o.toUtf8 fullPathW with
    | some fn8, some fp8 =>
      if o.jvmCached then
        if o.attachOk i then
          if o.allocOk i then
            (some ⟨mid, fp8, fn8, actionTag r.action, size, o.tsOracle i⟩,
             if o.cbThrows i then [.cbException] else [])
          else (none, [.allocFailed])
        else (none, [.attachFailed])
      else (none, [.jvmMissing])
    | _, _ => (none, [.convFailed])

/-- Processing of the whole visited record list, in order, collecting the
dispatched events and log lines; `i` numbers the records so the
per-record oracles can vary along the buffer. -/
def processRecords (o : Oracles) (dir : List Nat) (mid : Int) :
    Nat → List RawRecord → List NormalizedEvent × List LogMsg
  | _, [] => ([], [])
  | i, r :: rs =>
    let p := processRecord o dir mid i r
    let q := processRecords o dir mid (i + 1) rs
    (p.1.toList ++ q.1, p.2 ++ q.2)

/-- One iteration body of the outer `while` loop for a successful read
(lines 183-281): an empty buffer (`bytesReturned == 0`, line 184) yields
nothing; otherwise the record walk starting at offset 0 is processed.
Note that apart from the zero test, `len` (the `bytesReturned` count) is
never consulted: the walk and the name reads are not bounded by it. -/
def processNotifyBuffer (o : Oracles) (dir : List Nat) (mid : Int)
    (len : Nat) (m : Mem) : List NormalizedEvent × List LogMsg :=
  if len = 0 then ([], []) else
    processRecords o dir mid 0 (parseRecords m 0 BUFFER_SIZE)

/-- The watch loop over the successful reads delivered by
ReadDirectoryChangesW, in order; the loop exits when the next read fails
(end of the list).  The single-threaded trace is modelled: `running` is
set to 1 before the loop and nothing inside the loop body clears it. -/
def runLoop (o : Oracles) (dir : List Nat) (mid : Int) :
    List (Nat × Mem) → List NormalizedEvent × List LogMsg
  | [] => ([], [])
  | (len, m) :: rest =>
    let p := processNotifyBuffer o dir mid len m
    let q := runLoop o dir mid rest
    (p.1 ++ q.1, p.2 ++ q.2)

/-- A Win32 HANDLE value as the monitor stores it: NULL, the
INVALID_HANDLE_VALUE sentinel, or a valid handle. -/
inductive Handle where
  | hnull
  | hinvalid
  | hvalid (h : Nat)
deriving DecidableEq, Repr

/-- C truthiness test `gState.dirHandle && gState.dirHandle !=
INVALID_HANDLE_VALUE` used at lines 286, 326 and 373. -/
def handleOpen : Handle → Bool
  | .hnull => false
  | .hinvalid => false
  | .hvalid _ => true

/-- The global `gState` (lines 21-31).  The three JNI pointer fields
`callbackGlobal`, `callbackClass` and `onEventMethod` are modelled as
booleans recording whether the pointer is non-NULL; `running` is the
`volatile LONG` with its integer value. -/
structure MonitorState where
  monitorPathId : Int
  dirHandle : Handle
  callbackGlobal : Bool
  callbackClass : Bool
  onEventMethod : Bool
  dirPathW : List Nat
  running : Int
deriving DecidableEq, Repr

/-- Zero-initialized `gState = {0}` (line 31). -/
def initialState : MonitorState := ⟨0, .hnull, false, false, false, [], 0⟩

/-- Outcomes of the JNI/OS calls made by `startMonitoring`, plus the
successful reads the watch loop will consume.  `jPath = none` models a
NULL jstring; a non-NULL path carries its wide characters.
`openResult = none` models CreateFileW returning INVALID_HANDLE_VALUE;
`cleanupAttachOk` is the AttachCurrentThread outcome of the cleanup
block after the loop (lines 292-305). -/
structure StartEnv where
  jPath : Option (List Nat)
  jCallback : Bool
  getStringCharsOk : Bool
  openResult : Option Nat
  newGlobalRefCbOk : Bool
  getObjectClassOk : Bool
  newGlobalRefClsOk : Bool
  getMethodIdOk : Bool
  cleanupAttachOk : Bool
  reads : List (Nat × Mem)

/-- Which `return` statement of `startMonitoring` was reached. -/
inductive StartExit where
  | nullArg
  | charsFailed
  | openFailed
  | globalRefFailed
  | classFailed
  | classRefFailed
  | methodFailed
  | loopDone
deriving DecidableEq, Repr

/-- What one call to `startMonitoring` produces, as observed from
outside: the final global state, the return path taken, the events
dispatched to the callback before the native function returned, and
whether any error was raised to the Java caller.  The C function is
`void` and contains no `Throw`/`ThrowNew` call on any path, so every
branch of the embedding records `thrown = false`: failures are only
logged to stderr. -/
structure StartResult where
  state : MonitorState
  exit : StartExit
  events : List NormalizedEvent
  thrown : Bool
deriving Repr

/-- Embedding of `Java_com_neurasys_bridge_NativeFileMonitor_startMonitoring`
(lines 73-309): argument null-check (lines 76-79), GetStringChars (82-86),
copy of the path into `gState.dirPathW` truncated to MAX_PATH_LEN - 1
(89-91), CreateFileW (94-108), publication of id/handle/running (110-112),
global-ref, class-ref and method-id resolution with their unwind paths
(114-160) — note none of these unwind paths resets `running` — then the
blocking watch loop in the calling thread (164-281) and the cleanup block
(283-308), which closes the handle, releases the refs when the cleanup
attach succeeds, and finally clears `running`. -/
def startMonitoring (g : MonitorState) (env : StartEnv) (o : Oracles)
    (mid : Int) : StartResult :=
  match env.jPath, env.jCallback with
  | none, _ => ⟨g, .nullArg, [], false⟩
  | some _, false => ⟨g, .nullArg, [], false⟩
  | some path, true =>
    if env.getStringCharsOk = false then ⟨g, .charsFailed, [], false⟩ else
    let g1 := { g with dirPathW := path.take (MAX_PATH_LEN - 1) }
    match env.openResult with
    | none => ⟨g1, .openFailed, [], false⟩
    | some h =>
      let g2 := { g1 with monitorPathId := mid, dirHandle := .hvalid h, running := 1 }
      if env.newGlobalRefCbOk = false then
        ⟨{ g2 with dirHandle := .hnull }, .globalRefFailed, [], false⟩
      else
      let g3 := { g2 with callbackGlobal := true }
      if env.getObjectClassOk = false then
        ⟨{ g3 with callbackGlobal := false, dirHandle := .hnull }, .classFailed, [], false⟩
      else
      if env.newGlobalRefClsOk = false then
        ⟨{ g3 with callbackGlobal := false, dirHandle := .hnull }, .classRefFailed, [], false⟩
      else
      let g4 := { g3 with callbackClass := true }
      if env.getMethodIdOk = false then
        ⟨{ g4 with callbackClass := false, callbackGlobal := false, dirHandle := .hnull },
         .methodFailed, [], false⟩
      else
      let g5 := { g4 with onEventMethod := true }
      let evs := (runLoop o g5.dirPathW mid env.reads).1
      let g6 := if handleOpen g5.dirHandle then { g5 with dirHandle := .hnull } else g5
      let g7 :=
        if o.jvmCached && env.cleanupAttachOk then
          let ga := if g6.callbackClass then { g6 with callbackClass := false } else g6
          if ga.callbackGlobal then { ga with callbackGlobal := false } else ga
        else g6
      let g8 := { g7 with running := 0 }
      ⟨g8, .loopDone, evs, false⟩

/-- What one call to `stopMonitoring` logs: whether the id-mismatch
warning was printed and whether CloseHandle was actually invoked. -/
structure StopLog where
  warnedMismatch : Bool
  closedHandle : Bool
deriving DecidableEq, Repr

/-- Embedding of `Java_com_neurasys_bridge_NativeFileMonitor_stopMonitoring`
(lines 315-348): warn on id mismatch (318-322), clear `running` (324),
close the directory handle only when it is non-NULL and not
INVALID_HANDLE_VALUE (326-330), and release the two global refs when the
JVM is cached and the attach succeeds, each ref individually guarded by
its own null test (332-345).  The function is `void` and has no failure
path: it completes on every input. -/
def stopMonitoring (jvmCached attachOk : Bool) (mid : Int)
    (s : MonitorState) : MonitorState × StopLog :=
  let warned := decide (s.monitorPathId ≠ mid)
  let s1 := { s with running := 0 }
  let closed := handleOpen s1.dirHandle
  let s2 := if handleOpen s1.dirHandle then { s1 with dirHandle := .hnull } else s1
  let s3 :=
    if jvmCached && attachOk then
      let sa := if s2.callbackClass then { s2 with callbackClass := false } else s2
      if sa.callbackGlobal then { sa with callbackGlobal := false } else sa
    else s2
  (s3, ⟨warned, closed⟩)

/-- Embedding of `getNativeMonitorStats` (lines 354-364): the pair of
integers interpolated into the `"running=%d, monitorId=%d"` string. -/
def getNativeMonitorStats (s : MonitorState) : Int × Int :=
  (s.running, s.monitorPathId)

/-- Embedding of `isMonitoringActive` (lines 370-374):
`(gState.running && gState.dirHandle && gState.dirHandle !=
INVALID_HANDLE_VALUE) ? JNI_TRUE : JNI_FALSE`. -/
def isMonitoringActive (s : MonitorState) : Bool :=
  decide (s.running ≠ 0) && handleOpen s.dirHandle

/-! Concrete material used by the closed theorems below. -/

/-- Oracle in which every external call succeeds: sizes read as 100,
UTF-16→UTF-8 conversion is the identity on code units, the JVM is
cached, attach and allocation always succeed, the callback never throws,
and timestamps are empty. -/
def oracleOk : Oracles :=
  ⟨fun _ => some 100, fun ws => some ws, true, fun _ => true, fun _ => true,
   fun _ => false, fun _ => ""⟩

/-- Oracle whose size lookup reports a low DWORD of 2^31 (a 2 GiB
file). -/
def oracleBigFile : Oracles :=
  ⟨fun _ => some (2 ^ 31), fun ws => some ws, true, fun _ => true, fun _ => true,
   fun _ => false, fun _ => ""⟩

/-- Oracle in which every UTF-16→UTF-8 conversion fails. -/
def oracleConvFail : Oracles :=
  ⟨fun _ => some 0, fun _ => none, true, fun _ => true, fun _ => true,
   fun _ => false, fun _ => ""⟩

/-- Oracle in which AttachCurrentThread always fails. -/
def oracleAttachFail : Oracles :=
  ⟨fun _ => some 0, fun ws => some ws, true, fun _ => false, fun _ => true,
   fun _ => false, fun _ => ""⟩

/-- Notification buffer holding a RenamedFrom record (action 4,
name "a", NextEntryOffset 16) immediately followed by a RenamedNew
record (action 5, name "b", NextEntryOffset 0); 30 valid bytes. -/
def c1bytes : List Nat :=
  [16, 0, 0, 0, 4, 0, 0, 0, 2, 0, 0, 0, 97, 0, 0, 0,
   0, 0, 0, 0, 5, 0, 0, 0, 2, 0, 0, 0, 98, 0]

/-- `c1bytes` as a memory; bytes past the list read as 0. -/
def c1mem : Mem := fun i => c1bytes.getD i 0

/-- Sixteen valid buffer bytes: one record with NextEntryOffset 0,
Action 1 (FILE_ACTION_ADDED) and a self-described FileNameLength of 100
bytes, i.e. a name that would span byte indices 12..111 although only
16 bytes were returned. -/
def c3base : List Nat :=
  [0, 0, 0, 0, 1, 0, 0, 0, 100, 0, 0, 0, 97, 0, 98, 0]

/-- `c3base` padded past the valid length with byte 65: one possible
content of the uninitialized tail of the 32 KiB stack buffer. -/
def c3mem1 : Mem := fun i => if i < 16 then c3base.getD i 0 else 65

/-- `c3base` padded past the valid length with byte 66: another possible
content of the uninitialized tail; agrees with `c3mem1` on all 16 valid
bytes. -/
def c3mem2 : Mem := fun i => if i < 16 then c3base.getD i 0 else 66

/-- Buffer holding a single RenamedFrom record (action 4, name "a",
NextEntryOffset 0, 14 valid bytes): an old-name record followed by no
record at all. -/
def c4bytes : List Nat := [0, 0, 0, 0, 4, 0, 0, 0, 2, 0, 0, 0, 97, 0]

/-- `c4bytes` as a memory. -/
def c4mem : Mem := fun i => c4bytes.getD i 0

/-- Start environment with a NULL jstring path and everything else
healthy. -/
def envNull : StartEnv := ⟨none, true, true, some 5, true, true, true, true, true, []⟩

/-- Start environment with an empty (non-NULL) path; CreateFileW on the
empty path fails, so `openResult = none`. -/
def envEmptyPath : StartEnv := ⟨some [], true, true, none, true, true, true, true, true, []⟩

/-- Fully healthy start environment whose single successful read
delivers the rename-pair buffer `c1mem` (30 bytes); the next read fails
and the loop exits. -/
def envC2 : StartEnv :=
  ⟨some [67], true, true, some 5, true, true, true, true, true, [(30, c1mem)]⟩

/-! Helper lemmas shared by the claim theorems. -/

/-- Unfolding equation for `processRecords` on a cons cell. -/
theorem processRecords_cons (o : Oracles) (dir : List Nat) (mid : Int) (i : Nat)
    (r : RawRecord) (rs : List RawRecord) :
    processRecords o dir mid i (r :: rs) =
      ((processRecord o dir mid i r).1.toList ++ (processRecords o dir mid (i + 1) rs).1,
       (processRecord o dir mid i r).2 ++ (processRecords o dir mid (i + 1) rs).2) := rfl

/-- The event produced for a record does not depend on whether the Java
callback raised an exception: the exception is checked only after the
call, logged, and cleared (FileMonitor.c lines 255-258). -/
theorem processRecord_fst_cbThrows (o : Oracles) (f : Nat → Bool) (dir : List Nat)
    (mid : Int) (i : Nat) (r : RawRecord) :
    (processRecord { o with cbThrows := f } dir mid i r).1 =
      (processRecord o dir mid i r).1 := by
  cases o with
  | mk sz conv jvm att alo cbt tso =>
    by_cases h5 : r.action = 5
    · simp [processRecord, h5]
    · cases hn : conv r.name with
      | none => simp [processRecord, h5, hn]
      | some fn8 =>
        cases hp : conv (join_path_w dir r.name) with
        | none => simp [processRecord, h5, hn, hp]
        | some fp8 =>
          cases jvm <;> cases hat : att i <;> cases hal : alo i <;>
            simp [processRecord, h5, hn, hp, hat, hal]

/-- When AttachCurrentThread fails for a record, no event is dispatched
for it (FileMonitor.c lines 238 and 269-271). -/
theorem processRecord_fst_of_attachFail (o : Oracles) (dir : List Nat) (mid : Int)
    (i : Nat) (r : RawRecord) (h : o.attachOk i = false) :
    (processRecord o dir mid i r).1 = none := by
  by_cases h5 : r.action = 5
  · simp [processRecord, h5]
  · cases hn : o.toUtf8 r.name with
    | none => simp [processRecord, h5, hn]
    | some fn8 =>
      cases hp : o.toUtf8 (join_path_w dir r.name) with
      | none => simp [processRecord, h5, hn, hp]
      | some fp8 =>
        cases hj : o.jvmCached <;> simp [processRecord, h5, hn, hp, hj, h]

/-- The dispatched-event list of a whole record walk does not depend on
the callback-exception oracle. -/
theorem processRecords_fst_cbThrows (o : Oracles) (f : Nat → Bool) (dir : List Nat)
    (mid : Int) (rs : List RawRecord) : ∀ i,
    (processRecords { o with cbThrows := f } dir mid i rs).1 =
      (processRecords o dir mid i rs).1 := by
  induction rs with
  | nil => intro i; rfl
  | cons r rs ih =>
    intro i
    simp [processRecords_cons, processRecord_fst_cbThrows, ih]

/-- Full description of `stopMonitoring`'s result: `running` is cleared,
an open handle is closed (a NULL or INVALID handle is left alone and no
CloseHandle call is made), the two global refs are released exactly when
the JVM is cached and the attach succeeds, and the id and path fields are
untouched. -/
theorem stopMonitoring_spec (jvm att : Bool) (mid : Int) (s : MonitorState) :
    stopMonitoring jvm att mid s =
      (⟨s.monitorPathId,
        if handleOpen s.dirHandle then .hnull else s.dirHandle,
        !(jvm && att) && s.callbackGlobal,
        !(jvm && att) && s.callbackClass,
        s.onEventMethod, s.dirPathW, 0⟩,
       ⟨decide (s.monitorPathId ≠ mid), handleOpen s.dirHandle⟩) := by
  cases s with
  | mk pid dh cg cc oem path run =>
    cases jvm <;> cases att <;> cases cg <;> cases cc <;> cases dh <;> rfl

/-! Claim theorems. -/

/-- C1 counterexample: on a buffer where a RenamedFrom record (name "a",
code 97) is immediately followed by a RenamedNew record (name "b", code
98) and every external call succeeds, the watcher dispatches exactly one
event with tag RENAME, but it carries only the old name: the new name
(98) appears in neither the fileName nor the fullPath of the event, so
the event does not carry both names as the claim states. -/
theorem c1_counterexample :
    (processNotifyBuffer oracleOk [67] 7 30 c1mem).1 =
      [⟨7, [67, 92, 97], [97], "RENAME", 100, ""⟩] ∧
    ([67, 92, 97] : List Nat).contains 98 = false ∧
    ([97] : List Nat).contains 98 = false := by decide

/-- C1 (amended): for every record sequence in which a RenamedFrom
record (action 4) is immediately followed by a RenamedNew record
(action 5), with conversion, attach and allocation succeeding, the
watcher dispatches exactly one RENAME event for the pair, carrying the
old name only; the RenamedNew record is skipped and contributes no
event, so the new name is never delivered. -/
theorem c1_amended_theorem (sz : List Nat → Option Nat) (conv : List Nat → List Nat)
    (cbt : Nat → Bool) (tso : Nat → String) (dir : List Nat) (mid : Int) (i : Nat)
    (n1 n2 : Nat) (oldName newName : List Nat) (rest : List RawRecord) :
    (processRecords
        ⟨sz, fun ws => some (conv ws), true, fun _ => true, fun _ => true, cbt, tso⟩
        dir mid i (⟨n1, 4, oldName⟩ :: ⟨n2, 5, newName⟩ :: rest)).1 =
      ⟨mid, conv (join_path_w dir oldName), conv oldName, "RENAME",
        fileSizeOf sz (join_path_w dir oldName), tso i⟩ ::
        (processRecords
          ⟨sz, fun ws => some (conv ws), true, fun _ => true, fun _ => true, cbt, tso⟩
          dir mid (i + 1 + 1) rest).1 := by
  simp [processRecords_cons, processRecord, actionTag]

/-- C2 counterexample: `startMonitoring` does not return to its caller
before the watch loop runs; on a healthy environment whose first read
delivers the rename buffer, the event is dispatched before the native
call returns — the returned trace already contains it, refuting the
claim that start returns immediately with the loop running
asynchronously in another thread. -/
theorem c2_counterexample :
    (startMonitoring initialState envC2 oracleOk 7).events =
      [⟨7, [67, 92, 97], [97], "RENAME", 100, ""⟩] ∧
    (startMonitoring initialState envC2 oracleOk 7).events.length = 1 := by decide

/-- C2 (amended): `startMonitoring` spawns no thread; it runs the
blocking watch loop in the calling thread. When validation, the
directory open and the JNI resolutions succeed, the call returns only
after the loop has consumed every successful read: all events are
dispatched before the function returns, the handle is closed and
`running` cleared by the in-function cleanup. Any background thread
must be supplied by the caller. -/
theorem c2_amended_theorem (g : MonitorState) (o : Oracles) (mid : Int)
    (p : List Nat) (h : Nat) (cak : Bool) (reads : List (Nat × Mem)) :
    startMonitoring g ⟨some p, true, true, some h, true, true, true, true, cak, reads⟩ o mid =
      ⟨⟨mid, .hnull, !(o.jvmCached && cak), !(o.jvmCached && cak), true,
        p.take (MAX_PATH_LEN - 1), 0⟩, .loopDone,
       (runLoop o (p.take (MAX_PATH_LEN - 1)) mid reads).1, false⟩ := by
  cases o with
  | mk sz conv jvm att alo cbt tso =>
    cases jvm <;> cases cak <;> rfl

/-- C3 (code bug): the parser reads past the supplied buffer length.
`c3mem1` and `c3mem2` agree on all 16 valid bytes, whose single record
self-describes a 100-byte name (overrunning the 16-byte buffer), yet
the parsed records — and the dispatched events — differ between the two
memories, so bytes beyond the valid length were read; the record is not
treated as malformed and the sequence is not terminated. -/
theorem c3_theorem :
    (List.range 16).map c3mem1 = (List.range 16).map c3mem2 ∧
    readDWord c3mem1 8 = 100 ∧
    decide (parseRecords c3mem1 0 BUFFER_SIZE = parseRecords c3mem2 0 BUFFER_SIZE) = false ∧
    decide ((processNotifyBuffer oracleOk [67] 7 16 c3mem1).1 =
      (processNotifyBuffer oracleOk [67] 7 16 c3mem2).1) = false := by decide

/-- C4 counterexample: a RenamedFrom record followed by no record at all
is dispatched as a standalone event, but with action tag RENAME, not
RENAME_OLD — the tag RENAME_OLD is never produced. -/
theorem c4_counterexample :
    (processNotifyBuffer oracleOk [67] 7 14 c4mem).1 =
      [⟨7, [67, 92, 97], [97], "RENAME", 100, ""⟩] ∧
    ((processNotifyBuffer oracleOk [67] 7 14 c4mem).1.map (fun e => e.action)) =
      ["RENAME"] ∧
    (((processNotifyBuffer oracleOk [67] 7 14 c4mem).1.map (fun e => e.action)).contains
      "RENAME_OLD") = false := by decide

/-- C4 (amended): a RenamedFrom record followed by a record that is not
RenamedNew, or by no record at all, is dispatched as a standalone event
with action tag RENAME (there is no RENAME_OLD tag in the code), not
silently dropped, and the following record is then processed normally
as the next element of the walk. -/
theorem c4_amended_theorem (sz : List Nat → Option Nat) (conv : List Nat → List Nat)
    (cbt : Nat → Bool) (tso : Nat → String) (dir : List Nat) (mid : Int) (i : Nat)
    (n1 : Nat) (oldName : List Nat) (r2 : RawRecord) (rs : List RawRecord)
    (_h : r2.action ≠ 5) :
    (processRecords
        ⟨sz, fun ws => some (conv ws), true, fun _ => true, fun _ => true, cbt, tso⟩
        dir mid i (⟨n1, 4, oldName⟩ :: r2 :: rs)).1 =
      ⟨mid, conv (join_path_w dir oldName), conv oldName, "RENAME",
        fileSizeOf sz (join_path_w dir oldName), tso i⟩ ::
        (processRecords
          ⟨sz, fun ws => some (conv ws), true, fun _ => true, fun _ => true, cbt, tso⟩
          dir mid (i + 1) (r2 :: rs)).1 ∧
    (processRecords
        ⟨sz, fun ws => some (conv ws), true, fun _ => true, fun _ => true, cbt, tso⟩
        dir mid i [⟨n1, 4, oldName⟩]).1 =
      [⟨mid, conv (join_path_w dir oldName), conv oldName, "RENAME",
        fileSizeOf sz (join_path_w dir oldName), tso i⟩] := by
  constructor <;> simp [processRecords_cons, processRecords, processRecord, actionTag]

/-- C4 witness: the amended theorem applied to a concrete RenamedFrom
record followed by a Modified record (action 3 ≠ 5). -/
theorem c4_witness :
    ((⟨0, 3, [99]⟩ : RawRecord).action ≠ 5) ∧
    ((processRecords oracleOk [67] 7 0 (⟨2, 4, [97]⟩ :: (⟨0, 3, [99]⟩ : RawRecord) :: [])).1 =
      ⟨7, [67, 92, 97], [97], "RENAME", 100, ""⟩ ::
        (processRecords oracleOk [67] 7 (0 + 1) ((⟨0, 3, [99]⟩ : RawRecord) :: [])).1 ∧
    (processRecords oracleOk [67] 7 0 [⟨2, 4, [97]⟩]).1 =
      [⟨7, [67, 92, 97], [97], "RENAME", 100, ""⟩]) :=
  ⟨by decide,
   c4_amended_theorem (fun _ => some 100) (fun ws => ws) (fun _ => false) (fun _ => "")
     [67] 7 0 2 [97] ⟨0, 3, [99]⟩ [] (by decide)⟩

/-- C5 (code bug): the size is 0 when the lookup fails, as claimed, but
it is not never-negative: `(long)fad.nFileSizeLow` reinterprets the
unsigned low DWORD as a 32-bit signed value, so a successful lookup of a
file whose low size DWORD is 2^31 (a 2 GiB file) dispatches the
negative size -2147483648. -/
theorem c5_theorem :
    fileSizeOf (fun _ => none) [67, 92, 97] = 0 ∧
    (processRecord oracleBigFile [67] 7 0 ⟨0, 1, [97]⟩).1 =
      some ⟨7, [67, 92, 97], [97], "CREATE", -2147483648, ""⟩ ∧
    ((processRecord oracleBigFile [67] 7 0 ⟨0, 1, [97]⟩).1.map
      (fun e => decide (e.fileSize < 0))) = some true := by decide

/-- C6 counterexample: on a NULL path the native start returns without
surfacing any error to the caller (the function is void and throws
nothing; `thrown = false`), merely logging and leaving the state
untouched — no InvalidArgument error reaches the caller; and an empty
(non-NULL) path is not rejected by the argument check at all: it
proceeds to the directory open and fails there. -/
theorem c6_counterexample :
    (startMonitoring initialState envNull oracleOk 7).thrown = false ∧
    (startMonitoring initialState envNull oracleOk 7).exit = .nullArg ∧
    (startMonitoring initialState envNull oracleOk 7).state = initialState ∧
    (startMonitoring initialState envEmptyPath oracleOk 7).exit = .openFailed := by decide

/-- C6 (amended): a NULL path or missing consumer makes start return
synchronously with only a logged message — no monitoring begins, the
state is untouched, no events are dispatched, and no error is surfaced
to the caller; an empty non-NULL path passes the argument check
unrejected and fails at the directory-open step instead, likewise
without starting monitoring or surfacing an error. -/
theorem c6_amended_theorem (g : MonitorState) (o : Oracles) (mid : Int)
    (cb cs : Bool) (orr : Option Nat) (b1 b2 b3 b4 cak : Bool)
    (reads : List (Nat × Mem)) (p : List Nat) :
    startMonitoring g ⟨none, cb, cs, orr, b1, b2, b3, b4, cak, reads⟩ o mid =
      ⟨g, .nullArg, [], false⟩ ∧
    startMonitoring g ⟨some p, false, cs, orr, b1, b2, b3, b4, cak, reads⟩ o mid =
      ⟨g, .nullArg, [], false⟩ ∧
    startMonitoring g ⟨some [], true, true, none, b1, b2, b3, b4, cak, reads⟩ o mid =
      ⟨{ g with dirPathW := [] }, .openFailed, [], false⟩ :=
  ⟨rfl, rfl, rfl⟩

/-- C7: stop is idempotent on the monitor state — a second stop (under
the same JVM/attach conditions) leaves the state exactly as the first
left it; after any stop the handle is closed, so any later stop performs
no CloseHandle call at all (the already-closed handle is a successful
no-op); and stopping when no session was ever active completes, leaving
the inactive state unchanged and closing nothing.  The embedded stop is
total: the C function is void with no failure path. -/
theorem c7_theorem (jvm att : Bool) (mid mid2 : Int) (s : MonitorState)
    (jvm2 att2 : Bool) :
    (stopMonitoring jvm att mid ((stopMonitoring jvm att mid s).1)).1 =
      (stopMonitoring jvm att mid s).1 ∧
    ((stopMonitoring jvm2 att2 mid2 ((stopMonitoring jvm att mid s).1)).2).closedHandle =
      false ∧
    (stopMonitoring jvm att mid initialState).1 = initialState ∧
    ((stopMonitoring jvm att mid initialState).2).closedHandle = false := by
  cases s with
  | mk pid dh cg cc oem path run =>
    refine ⟨?_, ?_, ?_, ?_⟩ <;>
      cases jvm <;> cases att <;> cases cg <;> cases cc <;> cases dh <;>
        simp [stopMonitoring_spec, handleOpen, initialState]

/-- C8: a record whose name fails UTF-16→UTF-8 conversion produces no
event, the failure is logged (convFailed) and non-fatal, and the walk
continues with the next record: the events of the buffer are exactly the
events of the remaining records. -/
theorem c8_theorem (o : Oracles) (dir : List Nat) (mid : Int) (i : Nat)
    (r : RawRecord) (rs : List RawRecord)
    (hc : o.toUtf8 r.name = none) (h5 : r.action ≠ 5) :
    (processRecords o dir mid i (r :: rs)).1 = (processRecords o dir mid (i + 1) rs).1 ∧
    (processRecord o dir mid i r).1 = none ∧
    (processRecord o dir mid i r).2 = [.convFailed] := by
  have hrec : processRecord o dir mid i r = (none, [.convFailed]) := by
    cases hp : o.toUtf8 (join_path_w dir r.name) <;>
      simp [processRecord, h5, hc, hp]
  exact ⟨by simp [processRecords_cons, hrec], by rw [hrec], by rw [hrec]⟩

/-- C8 witness: the theorem applied to a concrete record whose name
conversion fails, followed by one more record. -/
theorem c8_witness :
    oracleConvFail.toUtf8 ([97] : List Nat) = none ∧
    ((⟨0, 1, [97]⟩ : RawRecord).action ≠ 5) ∧
    ((processRecords oracleConvFail [67] 7 0 ((⟨0, 1, [97]⟩ : RawRecord) :: [⟨0, 2, [98]⟩])).1 =
      (processRecords oracleConvFail [67] 7 (0 + 1) [⟨0, 2, [98]⟩]).1 ∧
    (processRecord oracleConvFail [67] 7 0 ⟨0, 1, [97]⟩).1 = none ∧
    (processRecord oracleConvFail [67] 7 0 ⟨0, 1, [97]⟩).2 = [.convFailed]) :=
  ⟨rfl, by decide,
   c8_theorem oracleConvFail [67] 7 0 ⟨0, 1, [97]⟩ [⟨0, 2, [98]⟩] rfl (by decide)⟩

/-- C9: an exception raised inside the consumer callback is caught,
logged, and cleared — the dispatched-event trace of the whole buffer is
unchanged whatever the callback-exception oracle says, so the watch loop
neither terminates nor changes behaviour because of it; and a failure of
the AttachCurrentThread step for a record drops only that record's
event: the buffer's events are exactly those of the remaining records. -/
theorem c9_theorem (o : Oracles) (f : Nat → Bool) (dir : List Nat) (mid : Int)
    (i : Nat) (r : RawRecord) (rs : List RawRecord) (h : o.attachOk i = false) :
    (processRecords { o with cbThrows := f } dir mid i rs).1 =
      (processRecords o dir mid i rs).1 ∧
    (processRecords o dir mid i (r :: rs)).1 = (processRecords o dir mid (i + 1) rs).1 := by
  refine ⟨processRecords_fst_cbThrows o f dir mid rs i, ?_⟩
  simp [processRecords_cons, processRecord_fst_of_attachFail o dir mid i r h]

/-- C9 witness: the theorem applied with a concrete always-failing
attach oracle, a concrete record and a concrete tail. -/
theorem c9_witness :
    oracleAttachFail.attachOk 0 = false ∧
    ((processRecords { oracleAttachFail with cbThrows := fun _ => true } [67] 7 0
        [⟨0, 2, [98]⟩]).1 =
      (processRecords oracleAttachFail [67] 7 0 [⟨0, 2, [98]⟩]).1 ∧
    (processRecords oracleAttachFail [67] 7 0 ((⟨0, 1, [97]⟩ : RawRecord) :: [⟨0, 2, [98]⟩])).1 =
      (processRecords oracleAttachFail [67] 7 (0 + 1) [⟨0, 2, [98]⟩]).1) :=
  ⟨rfl,
   c9_theorem oracleAttachFail (fun _ => true) [67] 7 0 ⟨0, 1, [97]⟩ [⟨0, 2, [98]⟩] rfl⟩

/-- C10: `isMonitoringActive` is the conjunction of the running flag and
handle validity; when a start opens the directory but then fails at the
global-reference step (or later at the method-resolution step), the
handle is closed and nulled while `running` is left at 1, so
`isMonitoringActive` reports false while `getNativeMonitorStats` still
reports running = 1. -/
theorem c10_theorem (g : MonitorState) (o : Oracles) (mid : Int) (p : List Nat)
    (h : Nat) (cak b2 b3 b4 : Bool) (reads : List (Nat × Mem)) (s : MonitorState) :
    isMonitoringActive
      ((startMonitoring g ⟨some p, true, true, some h, false, b2, b3, b4, cak, reads⟩ o mid).state) =
      false ∧
    ((startMonitoring g ⟨some p, true, true, some h, false, b2, b3, b4, cak, reads⟩ o mid).state).running = 1 ∧
    (getNativeMonitorStats
      ((startMonitoring g ⟨some p, true, true, some h, false, b2, b3, b4, cak, reads⟩ o mid).state)).1 = 1 ∧
    ((startMonitoring g ⟨some p, true, true, some h, false, b2, b3, b4, cak, reads⟩ o mid).state).dirHandle =
      .hnull ∧
    isMonitoringActive
      ((startMonitoring g ⟨some p, true, true, some h, true, true, true, false, cak, reads⟩ o mid).state) =
      false ∧
    ((startMonitoring g ⟨some p, true, true, some h, true, true, true, false, cak, reads⟩ o mid).state).running = 1 ∧
    (getNativeMonitorStats
      ((startMonitoring g ⟨some p, true, true, some h, true, true, true, false, cak, reads⟩ o mid).state)).1 = 1 ∧
    isMonitoringActive s = (decide (s.running ≠ 0) && handleOpen s.dirHandle) :=
  ⟨rfl, rfl, rfl, rfl, rfl, rfl, rfl, rfl⟩

end FileMonitor
